import Mathlib

/-!
Verification development for the socialsimple backend
(src/socialsimple/app/app.py and src/socialsimple/app/db.py).

UUIDs are modelled as natural numbers (their 128-bit integer value),
timestamps as natural numbers, and the database as an in-memory list of
rows.  Each HTTP handler is embedded as a pure function on that state;
Python exceptions are modelled with `Except`, so that a handler written
as `try ... except Exception: raise HTTPException(500, str(e))` becomes
a wrapper that converts any raised exception of the body into a 500
response.  FastAPI/Starlette `HTTPException` is a subclass of `Exception`,
so an `HTTPException` raised inside such a `try` block is caught by the
broad handler as well; the embedding reproduces that.
-/

namespace SocialSimple

/-- Row of the `posts` table (db.py, class Post): id and user_id are UUID
columns (modelled as Nat), caption/url/file_type/file_name are text, and
created_at is a timestamp (modelled as Nat). -/
structure Post where
  id : Nat
  user_id : Nat
  caption : String
  url : String
  file_type : String
  file_name : String
  created_at : Nat
deriving Repr, DecidableEq

/-- Row of the `user` table (db.py, class User); only the fields the
handlers read are modelled: the primary key and the email. -/
structure User where
  id : Nat
  email : String
deriving Repr, DecidableEq

/-- The relational store the request-scoped session reads and writes. -/
structure Store where
  posts : List Post
  users : List User
deriving Repr, DecidableEq

/-- A Python exception as observed by the handlers: either a
Starlette `HTTPException` carrying a status code and a detail string, or a
plain exception (such as the `ValueError` raised by `uuid.UUID`) carrying
its message. -/
inductive PyExc where
  | http (status : Nat) (detail : String)
  | valueError (msg : String)
deriving Repr, DecidableEq

/-- Python `str(e)` for the exceptions above.  Starlette renders an
`HTTPException` as "status: detail". -/
def pyStr : PyExc → String
  | .http s d => toString s ++ ": " ++ d
  | .valueError m => m

/-- True for an ASCII hexadecimal digit. -/
def isHexChar (c : Char) : Bool :=
  (48 ≤ c.toNat && c.toNat ≤ 57) || (97 ≤ c.toNat && c.toNat ≤ 102) ||
    (65 ≤ c.toNat && c.toNat ≤ 70)

/-- Numeric value of an ASCII hexadecimal digit. -/
def hexCharVal (c : Char) : Nat :=
  if 48 ≤ c.toNat && c.toNat ≤ 57 then c.toNat - 48
  else if 97 ≤ c.toNat && c.toNat ≤ 102 then c.toNat - 87
  else c.toNat - 55

/-- Python `s.startswith(p)` (app.py line 63), by character list. -/
def pyStartswith (s p : String) : Bool :=
  p.data.isPrefixOf s.data

/-- Worker for `pyRemove`: scans the character list left to right; a
positive first argument means that many characters still belong to a
matched occurrence and are dropped; at zero, an occurrence of `pat`
starting here is consumed, anything else is copied through. -/
def removeOccsAux (pat : List Char) : Nat → List Char → List Char
  | _, [] => []
  | n + 1, _ :: cs => removeOccsAux pat n cs
  | 0, c :: cs =>
    if pat.isPrefixOf (c :: cs) then removeOccsAux pat (pat.length - 1) cs
    else c :: removeOccsAux pat 0 cs

/-- Python `s.replace(pat, "")` for a non-empty pattern: removes every
non-overlapping occurrence of `pat`, scanning left to right. -/
def pyRemove (s pat : String) : String :=
  String.mk (removeOccsAux pat.data 0 s.data)

/-- True for a curly-brace character. -/
def isBraceChar (c : Char) : Bool :=
  c == '\x7b' || c == '\x7d'

/-- Python `s.strip(braces)`: removes brace characters from both ends. -/
def stripBraces (s : String) : String :=
  String.mk (((s.data.dropWhile isBraceChar).reverse.dropWhile isBraceChar).reverse)

/-- Models the CPython `uuid.UUID(hex)` constructor called at app.py line
112 (`uuid.UUID(post_id)`, library code): the urn markers, surrounding
braces and hyphens are removed, and the remainder must be exactly 32
hexadecimal digits; otherwise the constructor raises
`ValueError("badly formed hexadecimal UUID string")`, modelled as `none`.
The result is the 128-bit integer value of the UUID. -/
def pyUUIDParse (s : String) : Option Nat :=
  let h1 := pyRemove (pyRemove s "urn:") "uuid:"
  let h2 := pyRemove (stripBraces h1) "-"
  if h2.length == 32 && h2.data.all isHexChar then
    some (h2.data.foldl (fun n c => 16 * n + hexCharVal c) 0)
  else none

/-- Response of the delete handler: either the success payload
`{"success": true, "message": ...}` or an `HTTPException` that escaped the
handler, rendered by FastAPI as an error status plus detail. -/
inductive Resp where
  | ok (success : Bool) (message : String)
  | httpError (status : Nat) (detail : String)
deriving Repr, DecidableEq

/-- Body of the `try` block of `delete_post` (app.py lines 111-127):
parse the path segment as a UUID (ValueError on failure), select the first
post with that id, raise HTTPException 404 if absent, raise HTTPException
403 if the caller does not own it, otherwise delete the row and commit.
Raised exceptions are the `Except.error` branch; the store is returned
unchanged on every raising path (the transaction never commits there). -/
def delete_post_try (post_id : String) (userId : Nat) (st : Store) :
    Except PyExc (Resp × Store) :=
  match pyUUIDParse post_id with
  | none => .error (.valueError "badly formed hexadecimal UUID string")
  | some post_uuid =>
    match st.posts.find? (fun p => p.id == post_uuid) with
    | none => .error (.http 404 "Post not found")
    | some post =>
      if post.user_id != userId then
        .error (.http 403 "You don\x27t have permission to delete this post.")
      else
        .ok (Resp.ok true "Post deleted successfully",
          { st with posts := st.posts.eraseP (fun p => p.id == post_uuid) })

/-- The `delete_post` handler (app.py lines 110-130).  The whole body sits
in `try ... except Exception as e: raise HTTPException(500, str(e))`, and
Starlette HTTPException is itself a subclass of Exception, so every
exception raised inside the body — including the 404 and 403
HTTPExceptions — is caught and re-raised as a 500 whose detail is
`str(e)`. -/
def delete_post (post_id : String) (userId : Nat) (st : Store) : Resp × Store :=
  match delete_post_try post_id userId st with
  | .ok r => r
  | .error e => (Resp.httpError 500 (pyStr e), st)

/-- Outcome of the `imagekit.upload_file` collaborator call (app.py lines
50-57): either a response object carrying
`response_metadata.http_status_code`, `url` and `name`, or a raised
exception with its message. -/
inductive MediaOutcome where
  | response (http_status_code : Nat) (url : String) (name : String)
  | raised (msg : String)
deriving Repr, DecidableEq

/-- Environment of one upload request: how each effectful step behaves.
`tempWriteOk` is whether the NamedTemporaryFile block (lines 45-48)
completes; when it raises, `tempCreatedOnFailure` records whether the
temporary file had already been created on disk before the failure.
`media` is the collaborator outcome and `commitOk` whether the database
commit succeeds. -/
structure UploadEnv where
  tempWriteOk : Bool
  tempCreatedOnFailure : Bool
  media : MediaOutcome
  commitOk : Bool
deriving Repr, DecidableEq

/-- Transient resources of one upload request: whether the temporary file
exists on disk and whether the input stream `file.file` is open. -/
structure Resources where
  tempFileExists : Bool
  streamOpen : Bool
deriving Repr, DecidableEq

/-- What the upload handler produces: the persisted Post on success, the
implicit Python `None` when control falls through the
`if http_status_code == 200` block without returning, or an escaped
HTTPException. -/
inductive UploadResp where
  | postCreated (post : Post)
  | noneResp
  | httpError (status : Nat) (detail : String)
deriving Repr, DecidableEq

/-- Body of the `try` block of `upload_file` (app.py lines 44-69),
threading the resource state: write the payload to a temporary file, call
the media collaborator, and when it reports status 200 build a Post with
`file_type = 'video' if file.content_type.startswith("video/") else
"image"`, add it to the session and commit, returning the persisted post.
Any other status falls off the end of the block: the implicit return is
`None` and nothing is added to the store.  `newId` and `now` stand for
the server-generated column defaults `uuid.uuid4()` and
`datetime.utcnow()` (db.py lines 29 and 35). -/
def upload_body (userId : Nat) (content_type : String) (cap : String)
    (env : UploadEnv) (newId now : Nat) (st : Store) :
    Except String (UploadResp × Store) × Resources :=
  if !env.tempWriteOk then
    (.error "temp file handling failed", ⟨env.tempCreatedOnFailure, true⟩)
  else
    match env.media with
    | .raised m => (.error m, ⟨true, true⟩)
    | .response status url name =>
      if status == 200 then
        if env.commitOk then
          let post : Post :=
            { id := newId
              user_id := userId
              caption := cap
              url := url
              file_type := if pyStartswith content_type "video/" then "video" else "image"
              file_name := name
              created_at := now }
          (.ok (.postCreated post, { st with posts := st.posts ++ [post] }), ⟨true, true⟩)
        else (.error "commit failed", ⟨true, true⟩)
      else
        (.ok (.noneResp, st), ⟨true, true⟩)

/-- The `finally` block of `upload_file` (app.py lines 73-76): unlink the
temporary file if it exists, then close the input stream. -/
def upload_finally (r : Resources) : Resources :=
  { tempFileExists := if r.tempFileExists then false else r.tempFileExists
    streamOpen := false }

/-- The `upload_file` handler (app.py lines 33-76).  The caption form
field defaults to the empty string when the request omits it
(`caption: str = Form("")`, line 35), modelled by an `Option String`
argument.  The body runs under `try ... except Exception as e: raise
HTTPException(500, str(e))` followed by the `finally` cleanup, which runs
on every exit path. -/
def upload_file (userId : Nat) (content_type : String) (caption : Option String)
    (env : UploadEnv) (newId now : Nat) (st : Store) :
    UploadResp × Store × Resources :=
  match upload_body userId content_type (caption.getD "") env newId now st with
  | (.ok (resp, st2), r) => (resp, st2, upload_finally r)
  | (.error m, r) => (.httpError 500 m, st, upload_finally r)

/-- The descending feed order used by `order_by(Post.created_at.desc())`
(app.py line 83): a comes before b when its created_at is at least
b created_at. -/
def postGe (a b : Post) : Prop :=
  b.created_at ≤ a.created_at

instance : DecidableRel postGe := fun a b => Nat.decLe b.created_at a.created_at

instance : IsTotal Post postGe := ⟨fun a b => Nat.le_total b.created_at a.created_at⟩

instance : IsTrans Post postGe := ⟨fun _ _ _ h1 h2 => Nat.le_trans h2 h1⟩

/-- The `select(Post).order_by(Post.created_at.desc())` query (app.py line
83): all stored posts, sorted by created_at descending (tie order left to
the store; the embedding picks insertion sort as one such order). -/
def sortDesc (l : List Post) : List Post :=
  List.insertionSort postGe l

/-- The `user_dict.get(post.user_id, "Unknown")` lookup (app.py lines
89 and 102): the email of the user with the given id, or the sentinel. -/
def userEmail (users : List User) (uid : Nat) : String :=
  match users.find? (fun u => u.id == uid) with
  | some u => u.email
  | none => "Unknown"

/-- One flattened record of the feed response (app.py lines 94-105).
The stringified UUID columns are modelled by `toString` on the numeric
value; created_at keeps its numeric value (isoformat is injective on it). -/
structure PostView where
  id : String
  user_id : String
  caption : String
  url : String
  file_type : String
  file_name : String
  created_at : Nat
  is_owner : Bool
  email : String
deriving Repr, DecidableEq

/-- Builds one feed record from a stored post (app.py lines 95-104):
every Post column copied (ids stringified), plus the computed
`is_owner = (post.user_id == user.id)` flag and the owner email. -/
def postView (users : List User) (callerId : Nat) (post : Post) : PostView :=
  { id := toString post.id
    user_id := toString post.user_id
    caption := post.caption
    url := post.url
    file_type := post.file_type
    file_name := post.file_name
    created_at := post.created_at
    is_owner := post.user_id == callerId
    email := userEmail users post.user_id }

/-- The `get_feed` handler (app.py lines 79-107): load all posts sorted
by created_at descending, load all users, and emit one flattened record
per post.  The caller id feeds only the per-record `is_owner` flag. -/
def get_feed (callerId : Nat) (st : Store) : List PostView :=
  (sortDesc st.posts).map (postView st.users callerId)

/-- A feed record with its viewer-dependent flag blanked, used to state
that the caller influences nothing else in the feed. -/
def eraseOwner (v : PostView) : PostView :=
  { v with is_owner := false }

/-- Inversion of a successful upload: when the handler returns a created
post, that post carries the caller id, the (defaulted) caption and the
content-type classification, and the store gained exactly that row. -/
theorem upload_postCreated_inv (userId : Nat) (ct : String) (caption : Option String)
    (env : UploadEnv) (newId now : Nat) (st st2 : Store) (p : Post) (r : Resources)
    (h : upload_file userId ct caption env newId now st = (.postCreated p, st2, r)) :
    p.user_id = userId ∧ p.caption = caption.getD "" ∧
      p.file_type = (if pyStartswith ct "video/" then "video" else "image") ∧
      st2.posts = st.posts ++ [p] ∧ st2.users = st.users := by
  obtain ⟨tw, tc, media, ck⟩ := env
  cases tw
  · simp [upload_file, upload_body] at h
  · cases media with
    | raised m => simp [upload_file, upload_body] at h
    | response status url name =>
      by_cases hs : status = 200
      · cases ck
        · simp [upload_file, upload_body, hs] at h
        · simp only [upload_file, upload_body, hs] at h
          simp only [Bool.not_true, Bool.false_eq_true, if_false, beq_self_eq_true,
            if_true, Prod.mk.injEq, UploadResp.postCreated.injEq] at h
          obtain ⟨hp, hst, _⟩ := h
          subst hp
          subst hst
          simp
      · simp only [upload_file, upload_body] at h
        simp only [Bool.not_true, Bool.false_eq_true, if_false,
          beq_iff_eq, hs, if_true, Prod.mk.injEq] at h
        simp at h

/-- Every row of the sorted query result is a stored row and conversely. -/
theorem mem_sortDesc (p : Post) (l : List Post) : p ∈ sortDesc l ↔ p ∈ l :=
  (List.perm_insertionSort postGe l).mem_iff

/-- The sorted query result is pairwise descending on created_at, and so
is the feed built from it. -/
theorem pairwise_feed (callerId : Nat) (st : Store) :
    List.Pairwise (fun a b : PostView => b.created_at ≤ a.created_at)
      (get_feed callerId st) :=
  List.Pairwise.map (postView st.users callerId) (fun _ _ hab => hab)
    (List.sorted_insertionSort postGe st.posts)

/-- C1: for every upload accepted by the upload operation, the persisted
Post appears in the resulting store and its file_type equals "video" iff
the uploaded content type starts with "video/", and equals "image"
otherwise; no other value is ever stored. -/
theorem upload_file_type_classification (userId : Nat) (ct : String)
    (caption : Option String) (env : UploadEnv) (newId now : Nat)
    (st st2 : Store) (p : Post) (r : Resources)
    (h : upload_file userId ct caption env newId now st = (.postCreated p, st2, r)) :
    p ∈ st2.posts ∧ (p.file_type = "video" ↔ pyStartswith ct "video/" = true) ∧
      (pyStartswith ct "video/" = false → p.file_type = "image") := by
  obtain ⟨_, _, hft, hposts, _⟩ := upload_postCreated_inv userId ct caption env newId now st st2 p r h
  refine ⟨by simp [hposts], ?_, ?_⟩
  · cases hv : pyStartswith ct "video/" <;> simp [hft, hv]
  · intro hv
    simp [hft, hv]

/-- C1 witness: a concrete video upload is accepted and classified. -/
theorem upload_file_type_classification_witness :
    upload_file 1 "video/mp4" (some "hi") ⟨true, false, .response 200 "http://u" "cat.mp4", true⟩
        7 100 ⟨[], []⟩ =
      (.postCreated ⟨7, 1, "hi", "http://u", "video", "cat.mp4", 100⟩,
        ⟨[⟨7, 1, "hi", "http://u", "video", "cat.mp4", 100⟩], []⟩, ⟨false, false⟩) ∧
    (⟨7, 1, "hi", "http://u", "video", "cat.mp4", 100⟩ : Post) ∈
        (⟨[⟨7, 1, "hi", "http://u", "video", "cat.mp4", 100⟩], []⟩ : Store).posts ∧
      ((⟨7, 1, "hi", "http://u", "video", "cat.mp4", 100⟩ : Post).file_type = "video" ↔
        pyStartswith "video/mp4" "video/" = true) ∧
      (pyStartswith "video/mp4" "video/" = false →
        (⟨7, 1, "hi", "http://u", "video", "cat.mp4", 100⟩ : Post).file_type = "image") :=
  ⟨by decide,
    upload_file_type_classification 1 "video/mp4" (some "hi")
      ⟨true, false, .response 200 "http://u" "cat.mp4", true⟩ 7 100 ⟨[], []⟩
      ⟨[⟨7, 1, "hi", "http://u", "video", "cat.mp4", 100⟩], []⟩
      ⟨7, 1, "hi", "http://u", "video", "cat.mp4", 100⟩ ⟨false, false⟩ (by decide)⟩

/-- C7: when the media collaborator reports a status other than 200 and
raises no exception, the handler persists nothing and falls through with
the implicit None return. -/
theorem upload_non200_falls_through (userId : Nat) (ct : String)
    (caption : Option String) (status : Nat) (url name : String) (tc ck : Bool)
    (newId now : Nat) (st : Store) (hs : status ≠ 200) :
    upload_file userId ct caption ⟨true, tc, .response status url name, ck⟩ newId now st =
      (.noneResp, st, ⟨false, false⟩) := by
  simp [upload_file, upload_body, upload_finally, hs]

/-- C7 witness: a concrete 404 from the collaborator. -/
theorem upload_non200_falls_through_witness :
    (404 : Nat) ≠ 200 ∧
      upload_file 1 "image/png" none ⟨true, false, .response 404 "u" "n", true⟩ 7 100 ⟨[], []⟩ =
        (.noneResp, ⟨[], []⟩, ⟨false, false⟩) :=
  ⟨by decide,
    upload_non200_falls_through 1 "image/png" none 404 "u" "n" false true 7 100 ⟨[], []⟩
      (by decide)⟩

/-- C8: on every exit path of the upload operation — success,
collaborator failure, or any exception — the transient local file is
removed and the input stream is closed. -/
theorem upload_cleanup_every_path (userId : Nat) (ct : String)
    (caption : Option String) (env : UploadEnv) (newId now : Nat) (st : Store) :
    (upload_file userId ct caption env newId now st).2.2.tempFileExists = false ∧
      (upload_file userId ct caption env newId now st).2.2.streamOpen = false := by
  have hfin : ∀ r : Resources, (upload_finally r).tempFileExists = false ∧
      (upload_finally r).streamOpen = false := by
    intro r
    cases hr : r.tempFileExists <;> simp [upload_finally, hr]
  unfold upload_file
  rcases upload_body userId ct (caption.getD "") env newId now st with ⟨e, r⟩
  cases e with
  | ok v => exact hfin r
  | error m => exact hfin r

/-- C10: when the upload request omits the caption form field, the
persisted Post carries the empty string as caption, and it is stored. -/
theorem upload_caption_defaults_empty (userId : Nat) (ct : String)
    (env : UploadEnv) (newId now : Nat) (st st2 : Store) (p : Post) (r : Resources)
    (h : upload_file userId ct none env newId now st = (.postCreated p, st2, r)) :
    p.caption = "" ∧ p ∈ st2.posts := by
  obtain ⟨_, hcap, _, hposts, _⟩ := upload_postCreated_inv userId ct none env newId now st st2 p r h
  exact ⟨hcap, by simp [hposts]⟩

/-- C10 witness: a concrete caption-less upload stores caption "". -/
theorem upload_caption_defaults_empty_witness :
    upload_file 1 "image/png" none ⟨true, false, .response 200 "u" "n", true⟩ 7 100 ⟨[], []⟩ =
      (.postCreated ⟨7, 1, "", "u", "image", "n", 100⟩,
        ⟨[⟨7, 1, "", "u", "image", "n", 100⟩], []⟩, ⟨false, false⟩) ∧
    (⟨7, 1, "", "u", "image", "n", 100⟩ : Post).caption = "" ∧
      (⟨7, 1, "", "u", "image", "n", 100⟩ : Post) ∈
        (⟨[⟨7, 1, "", "u", "image", "n", 100⟩], []⟩ : Store).posts :=
  ⟨by decide,
    upload_caption_defaults_empty 1 "image/png" ⟨true, false, .response 200 "u" "n", true⟩
      7 100 ⟨[], []⟩ ⟨[⟨7, 1, "", "u", "image", "n", 100⟩], []⟩
      ⟨7, 1, "", "u", "image", "n", 100⟩ ⟨false, false⟩ (by decide)⟩

/-- C2 evidence: a delete request whose path segment is not a parseable
UUID is answered with HTTP 500 — the ValueError from uuid.UUID is caught
by the broad except and re-raised as a generic server error — not with
the client error 400/422 the spec requires. -/
theorem delete_nonuuid_returns_500 (userId : Nat) (st : Store) :
    delete_post "not-a-uuid" userId st =
      (Resp.httpError 500 "badly formed hexadecimal UUID string", st) := by
  have hp : pyUUIDParse "not-a-uuid" = none := by decide
  simp [delete_post, delete_post_try, hp, pyStr]

/-- C3 evidence: a delete of a valid UUID matching no stored post is
answered with HTTP 500 (detail "404: Post not found") rather than 404:
the inner HTTPException(404) is caught by the broad except and re-raised
as 500.  A second delete of an already deleted id takes the same path:
the first delete succeeds and empties the store, the second returns the
500, so a delete never succeeds twice. -/
theorem delete_missing_returns_500 :
    (delete_post "00000000-0000-0000-0000-000000000001" 1 ⟨[], []⟩ =
      (Resp.httpError 500 "404: Post not found", ⟨[], []⟩)) ∧
    ((delete_post "00000000-0000-0000-0000-000000000001" 1
        ⟨[⟨1, 1, "hi", "u", "image", "f", 0⟩], []⟩).1 =
      Resp.ok true "Post deleted successfully") ∧
    (delete_post "00000000-0000-0000-0000-000000000001" 1
        (delete_post "00000000-0000-0000-0000-000000000001" 1
          ⟨[⟨1, 1, "hi", "u", "image", "f", 0⟩], []⟩).2 =
      (Resp.httpError 500 "404: Post not found", ⟨[], []⟩)) := by
  decide

/-- C4 evidence: a delete of an existing post by a non-owner leaves the
store unchanged — the post is still present — but is answered with HTTP
500 (detail "403: ...") rather than 403: the inner HTTPException(403) is
caught by the broad except and re-raised as 500. -/
theorem delete_foreign_returns_500 :
    delete_post "00000000-0000-0000-0000-000000000001" 2
        ⟨[⟨1, 1, "c", "u", "image", "f", 0⟩], []⟩ =
      (Resp.httpError 500 "403: You don\x27t have permission to delete this post.",
        ⟨[⟨1, 1, "c", "u", "image", "f", 0⟩], []⟩) := by
  decide

/-- C5: every feed record has is_owner true iff the underlying post is
owned by the caller; the feed lists all stored posts, and the caller id
changes nothing in the response beyond the is_owner flag. -/
theorem feed_is_owner_global (callerId : Nat) (st : Store) :
    List.Forall₂ (fun v p => v.is_owner = true ↔ p.user_id = callerId)
        (get_feed callerId st) (sortDesc st.posts) ∧
      (get_feed callerId st).length = st.posts.length ∧
      ∀ otherId : Nat,
        (get_feed callerId st).map eraseOwner = (get_feed otherId st).map eraseOwner := by
  refine ⟨?_, ?_, ?_⟩
  · rw [get_feed, List.forall₂_map_left_iff, List.forall₂_same]
    intro p _
    simp [postView]
  · rw [get_feed, List.length_map]
    exact (List.perm_insertionSort postGe st.posts).length_eq
  · intro otherId
    simp only [get_feed, List.map_map]
    exact List.map_congr_left (fun p _ => rfl)

/-- C6: for any two records of one feed response, the one with the
strictly greater created_at appears strictly earlier. -/
theorem feed_sorted_desc (callerId : Nat) (st : Store) (i j : Nat) (a b : PostView)
    (ha : (get_feed callerId st)[i]? = some a)
    (hb : (get_feed callerId st)[j]? = some b)
    (hab : b.created_at < a.created_at) : i < j := by
  have hp := (List.pairwise_iff_getElem).mp (pairwise_feed callerId st)
  rcases List.getElem?_eq_some.mp ha with ⟨hi, hia⟩
  rcases List.getElem?_eq_some.mp hb with ⟨hj, hjb⟩
  rcases Nat.lt_trichotomy i j with h | h | h
  · exact h
  · subst h
    rw [ha] at hb
    cases Option.some.inj hb
    exact absurd hab (lt_irrefl _)
  · have hge := hp j i hj hi h
    rw [hia, hjb] at hge
    exact absurd hab (not_lt.mpr hge)

/-- C6 witness: in a concrete two-post feed, the newer post (created_at 9)
sits at index 0, the older (created_at 5) at index 1. -/
theorem feed_sorted_desc_witness :
    ((get_feed 1 ⟨[⟨1, 1, "a", "u", "image", "f", 5⟩,
          ⟨2, 1, "b", "v", "image", "g", 9⟩], []⟩)[0]? =
        some ⟨"2", "1", "b", "v", "image", "g", 9, true, "Unknown"⟩ ∧
      (get_feed 1 ⟨[⟨1, 1, "a", "u", "image", "f", 5⟩,
          ⟨2, 1, "b", "v", "image", "g", 9⟩], []⟩)[1]? =
        some ⟨"1", "1", "a", "u", "image", "f", 5, true, "Unknown"⟩ ∧
      (⟨"1", "1", "a", "u", "image", "f", 5, true, "Unknown"⟩ : PostView).created_at <
        (⟨"2", "1", "b", "v", "image", "g", 9, true, "Unknown"⟩ : PostView).created_at) ∧
    (0 : Nat) < 1 :=
  ⟨⟨by decide, by decide, by decide⟩,
    feed_sorted_desc 1 ⟨[⟨1, 1, "a", "u", "image", "f", 5⟩,
        ⟨2, 1, "b", "v", "image", "g", 9⟩], []⟩ 0 1
      ⟨"2", "1", "b", "v", "image", "g", 9, true, "Unknown"⟩
      ⟨"1", "1", "a", "u", "image", "f", 5, true, "Unknown"⟩
      (by decide) (by decide) (by decide)⟩

/-- C9: a post returned by a successful upload appears in a subsequent
feed response (computed on the store the upload produced) with identical
stringified id, url, file_type, file_name and caption. -/
theorem upload_feed_round_trip (userId viewerId : Nat) (ct : String)
    (caption : Option String) (env : UploadEnv) (newId now : Nat)
    (st st2 : Store) (p : Post) (r : Resources)
    (h : upload_file userId ct caption env newId now st = (.postCreated p, st2, r)) :
    ∃ v ∈ get_feed viewerId st2, v.id = toString p.id ∧ v.url = p.url ∧
      v.file_type = p.file_type ∧ v.file_name = p.file_name ∧ v.caption = p.caption := by
  obtain ⟨_, _, _, hposts, _⟩ :=
    upload_postCreated_inv userId ct caption env newId now st st2 p r h
  refine ⟨postView st2.users viewerId p, ?_, rfl, rfl, rfl, rfl, rfl⟩
  exact List.mem_map_of_mem _ ((mem_sortDesc p st2.posts).mpr (by simp [hposts]))

/-- C9 witness: a concrete upload followed by a feed fetch by a different
user round-trips the stored fields. -/
theorem upload_feed_round_trip_witness :
    upload_file 1 "image/png" (some "cap") ⟨true, false, .response 200 "u" "n", true⟩
        7 100 ⟨[], []⟩ =
      (.postCreated ⟨7, 1, "cap", "u", "image", "n", 100⟩,
        ⟨[⟨7, 1, "cap", "u", "image", "n", 100⟩], []⟩, ⟨false, false⟩) ∧
    ∃ v ∈ get_feed 2 ⟨[⟨7, 1, "cap", "u", "image", "n", 100⟩], []⟩,
      v.id = toString (⟨7, 1, "cap", "u", "image", "n", 100⟩ : Post).id ∧
        v.url = (⟨7, 1, "cap", "u", "image", "n", 100⟩ : Post).url ∧
        v.file_type = (⟨7, 1, "cap", "u", "image", "n", 100⟩ : Post).file_type ∧
        v.file_name = (⟨7, 1, "cap", "u", "image", "n", 100⟩ : Post).file_name ∧
        v.caption = (⟨7, 1, "cap", "u", "image", "n", 100⟩ : Post).caption :=
  ⟨by decide,
    upload_feed_round_trip 1 2 "image/png" (some "cap")
      ⟨true, false, .response 200 "u" "n", true⟩ 7 100 ⟨[], []⟩
      ⟨[⟨7, 1, "cap", "u", "image", "n", 100⟩], []⟩
      ⟨7, 1, "cap", "u", "image", "n", 100⟩ ⟨false, false⟩ (by decide)⟩

end SocialSimple
